import Mathlib

/-!
Verification of the 10x-weather query core (src/weather_data.rs, src/indexes.rs).

The embedding models the data model, the dataset store, the index builder and
the query planner of the repository. Calendar dates (chrono::NaiveDate) are
totally ordered and only compared or used as map keys here, so they are
modeled by their day ordinal as a natural number. The four f32 measurement
fields of a record are never inspected by the index or query logic; they are
carried as integer payloads so that record equality stays decidable.
Rust HashMap values are modeled as total functions with an explicit default
(none / the empty list), and inserting into the map is pointwise function
update, which matches the last-write-wins semantics of HashMap insertion.
The panic paths of the source (parse errors, double index population) are
modeled by Option / Except results.
-/

/-- Day ordinal standing in for chrono::NaiveDate (totally ordered, only
compared and used as a key in the core). -/
abbrev NaiveDate := Nat

/-- Enumeration of the different types of weather, from weather_data.rs. -/
inductive WeatherKind where
  | drizzle
  | rain
  | snow
  | sun
  | fog
deriving DecidableEq, Repr

/-- One entry in the table of all weather data, from weather_data.rs.
The f32 measurement fields are opaque payloads for the query core and are
modeled as integers. -/
structure WeatherEntry where
  date : NaiveDate
  precipitation : Int
  temp_min : Int
  temp_max : Int
  wind : Int
  weather : WeatherKind
deriving DecidableEq, Repr

/-- Information about an error that occurred when parsing a weather entry,
from weather_data.rs. -/
structure WeatherEntryParseError where
  line_num : Nat
  line : String
  parse_error : String
deriving DecidableEq, Repr

/-- A validated weather query, from indexes.rs (struct WeatherQuery). -/
structure WeatherQuery where
  limit : Option Nat
  date : Option NaiveDate
  weather : Option WeatherKind
deriving DecidableEq, Repr

/-- The sort key order used by weather_entries: ascending date. -/
def dateLE (a b : WeatherEntry) : Prop := a.date ≤ b.date

instance : DecidableRel dateLE := fun a b => Nat.decLe a.date b.date

instance : IsTotal WeatherEntry dateLE := ⟨fun a b => Nat.le_total a.date b.date⟩

instance : IsTrans WeatherEntry dateLE := ⟨fun _ _ _ h h' => Nat.le_trans h h'⟩

/-- result.sort_by_key(|e| e.date) from weather_entries: a stable sort by
date. Rust's sort_by_key is stable, and stable sorting is extensionally
unique, so the structurally recursive stable insertion sort models it. -/
def sort_by_date (entries : List WeatherEntry) : List WeatherEntry :=
  List.insertionSort dateLE entries

/-- weather_entries from weather_data.rs, as a function of the per-line parse
results produced by parse_weather_file_contents. Counts the failing lines,
keeps the successful entries, panics (modeled by none) when any line failed,
and otherwise returns the entries sorted by date. (The source skips the sort
call when the vector is empty; sorting the empty list is the identity, so the
model sorts unconditionally.) -/
def weather_entries (rows : List (Except WeatherEntryParseError WeatherEntry)) :
    Option (List WeatherEntry) :=
  let errorCount := rows.countP (fun r => !r.isOk)
  let result := rows.filterMap Except.toOption
  if errorCount > 0 then none else some (sort_by_date result)

/-- Inserting one entry into the WEATHER_BY_DATE map
(weather_entries().iter().map(|e| (e.date, e)).collect into a HashMap):
later insertions overwrite earlier ones at the same key. -/
def insert_by_date (m : NaiveDate → Option WeatherEntry) (e : WeatherEntry) :
    NaiveDate → Option WeatherEntry :=
  fun d => if d = e.date then some e else m d

/-- The WEATHER_BY_DATE index built by populate_indexes: the map collected
from (e.date, e) pairs over the dataset, as a total function with default
none (HashMap::get returning None). -/
def weather_by_date (entries : List WeatherEntry) : NaiveDate → Option WeatherEntry :=
  entries.foldl insert_by_date (fun _ => none)

/-- Inserting one entry into the WEATHER_BY_KIND map: and_modify pushes the
entry at the end of the existing vector, or_insert_with starts a fresh
one-element vector. With the default empty list both cases are appending. -/
def insert_by_kind (m : WeatherKind → List WeatherEntry) (e : WeatherEntry) :
    WeatherKind → List WeatherEntry :=
  fun k => if k = e.weather then m e.weather ++ [e] else m k

/-- The WEATHER_BY_KIND index built by populate_indexes, as a total function
with default empty list (handle_kind_query flat_maps the HashMap::get Option,
so an absent key behaves as the empty sequence). -/
def weather_by_kind (entries : List WeatherEntry) : WeatherKind → List WeatherEntry :=
  entries.foldl insert_by_kind (fun _ => [])

/-- The two OnceLock index cells of indexes.rs, none meaning not yet set. -/
structure Indexes where
  weatherByDate : Option (NaiveDate → Option WeatherEntry)
  weatherByKind : Option (WeatherKind → List WeatherEntry)

/-- OnceLock::set followed by .expect: succeeds exactly when the cell is
still empty, panics (modeled by Except.error) otherwise. -/
def once_lock_set (cell : Option A) (v : A) (msg : String) : Except String (Option A) :=
  match cell with
  | none => Except.ok (some v)
  | some _ => Except.error msg

/-- populate_indexes from indexes.rs: sets WEATHER_BY_DATE then
WEATHER_BY_KIND, panicking (Except.error) when a cell was already set. -/
def populate_indexes (entries : List WeatherEntry) (st : Indexes) :
    Except String Indexes :=
  match once_lock_set st.weatherByDate (weather_by_date entries)
      "populate_indexes should only be called once" with
  | Except.error e => Except.error e
  | Except.ok byDate =>
    match once_lock_set st.weatherByKind (weather_by_kind entries)
        "populate_indexes should only be called once" with
    | Except.error e => Except.error e
    | Except.ok byKind => Except.ok ⟨byDate, byKind⟩

/-- handle_date_query from indexes.rs: look the date up in WEATHER_BY_DATE,
filter the at-most-one result against the query's weather kind, collect. -/
def handle_date_query (entries : List WeatherEntry) (date : NaiveDate)
    (query : WeatherQuery) : List WeatherEntry :=
  ((weather_by_date entries date).filter
    (fun single_result =>
      (query.weather.map (fun weather => weather == single_result.weather)).getD true)).toList

/-- handle_kind_query from indexes.rs: look the kind up in WEATHER_BY_KIND
and apply the query's limit if there is one. -/
def handle_kind_query (entries : List WeatherEntry) (kind : WeatherKind)
    (query : WeatherQuery) : List WeatherEntry :=
  let result := weather_by_kind entries kind
  match query.limit with
  | some limit => result.take limit
  | none => result

/-- full_scan from indexes.rs: the whole dataset, truncated to the limit if
one is present. -/
def full_scan (entries : List WeatherEntry) (query : WeatherQuery) :
    List WeatherEntry :=
  match query.limit with
  | some limit => entries.take limit
  | none => entries

/-- handle_query from indexes.rs: the query-planning match, from most to
least strict path. -/
def handle_query (entries : List WeatherEntry) (query : WeatherQuery) :
    List WeatherEntry :=
  match query with
  | ⟨some 0, _, _⟩ => []
  | ⟨_, some date_v, _⟩ => handle_date_query entries date_v query
  | ⟨_, _, some weather_kind⟩ => handle_kind_query entries weather_kind query
  | _ => full_scan entries query

/-- A record satisfies the non-limit constraints of a query: the date
constraint and the weather-kind constraint, when present, both hold. -/
def matches_constraints (query : WeatherQuery) (e : WeatherEntry) : Bool :=
  ((query.date.map (fun d => e.date == d)).getD true) &&
  ((query.weather.map (fun weather => weather == e.weather)).getD true)

/-- Two distinct records sharing date 7, used to exhibit the duplicate-date
behavior of the date index. -/
def dupA : WeatherEntry := ⟨7, 0, 0, 0, 0, WeatherKind.sun⟩

def dupB : WeatherEntry := ⟨7, 1, 0, 0, 0, WeatherKind.sun⟩

/-- The sunny 2012-06-03 record of the spec's concrete scenarios, with the
date as ordinal 3. -/
def entrySun : WeatherEntry := ⟨3, 0, 94, 172, 29, WeatherKind.sun⟩

/-- The rainy 2012-06-04 record of the spec's concrete scenarios, with the
date as ordinal 4. -/
def entryRain : WeatherEntry := ⟨4, 13, 89, 128, 31, WeatherKind.rain⟩

/-- A two-record dataset in ascending date order. -/
def demoEntries : List WeatherEntry := [entrySun, entryRain]

theorem weather_by_date_foldl (l : List WeatherEntry) :
    ∀ (m : NaiveDate → Option WeatherEntry) (d : NaiveDate),
    (l.foldl insert_by_date m) d =
      ((l.filter (fun e => e.date == d)).getLast?).or (m d) := by
  induction l with
  | nil => intro m d; simp
  | cons e l ih =>
    intro m d
    rw [List.foldl_cons, ih]
    by_cases hd : e.date = d
    · simp only [List.filter_cons, hd, beq_self_eq_true, if_true, insert_by_date]
      cases hfl : l.filter (fun x => x.date == d) with
      | nil => simp [hfl, hd]
      | cons x xs =>
        cases hg : (x :: xs).getLast? with
        | none => rw [List.getLast?_eq_none_iff] at hg; exact absurd hg (by simp)
        | some y => simp [hfl, List.getLast?_cons_cons, hg]
    · have : (e.date == d) = false := by simp [hd]
      simp [List.filter_cons, this, insert_by_date, Ne.symm hd]

theorem weather_by_date_spec (entries : List WeatherEntry) (d : NaiveDate) :
    weather_by_date entries d = (entries.filter (fun e => e.date == d)).getLast? := by
  rw [weather_by_date, weather_by_date_foldl]
  simp

theorem weather_by_kind_foldl (l : List WeatherEntry) :
    ∀ (m : WeatherKind → List WeatherEntry) (k : WeatherKind),
    (l.foldl insert_by_kind m) k = m k ++ l.filter (fun e => e.weather == k) := by
  induction l with
  | nil => intro m k; simp
  | cons e l ih =>
    intro m k
    rw [List.foldl_cons, ih]
    by_cases hk : e.weather = k
    · subst hk
      simp [insert_by_kind, List.filter_cons]
    · have : (e.weather == k) = false := by simp [hk]
      simp [List.filter_cons, this, insert_by_kind, Ne.symm hk]

theorem weather_by_kind_spec (entries : List WeatherEntry) (k : WeatherKind) :
    weather_by_kind entries k = entries.filter (fun e => e.weather == k) := by
  rw [weather_by_kind, weather_by_kind_foldl]
  simp

theorem handle_query_zero (entries : List WeatherEntry) (q : WeatherQuery)
    (hl : q.limit = some 0) : handle_query entries q = [] := by
  obtain ⟨l, dt, w⟩ := q
  simp only at hl
  subst hl
  simp [handle_query]

theorem handle_query_date (entries : List WeatherEntry) (q : WeatherQuery) (d : NaiveDate)
    (hl : q.limit ≠ some 0) (hd : q.date = some d) :
    handle_query entries q = handle_date_query entries d q := by
  obtain ⟨l, dt, w⟩ := q
  simp only at hl hd
  subst hd
  match l, hl with
  | none, _ => simp [handle_query]
  | some (n + 1), _ => simp [handle_query]

theorem handle_query_kind (entries : List WeatherEntry) (q : WeatherQuery) (k : WeatherKind)
    (hl : q.limit ≠ some 0) (hd : q.date = none) (hw : q.weather = some k) :
    handle_query entries q = handle_kind_query entries k q := by
  obtain ⟨l, dt, w⟩ := q
  simp only at hl hd hw
  subst hd; subst hw
  match l, hl with
  | none, _ => simp [handle_query]
  | some (n + 1), _ => simp [handle_query]

theorem handle_query_full (entries : List WeatherEntry) (q : WeatherQuery)
    (hl : q.limit ≠ some 0) (hd : q.date = none) (hw : q.weather = none) :
    handle_query entries q = full_scan entries q := by
  obtain ⟨l, dt, w⟩ := q
  simp only at hl hd hw
  subst hd; subst hw
  match l, hl with
  | none, _ => simp [handle_query]
  | some (n + 1), _ => simp [handle_query]

theorem handle_query_nil (q : WeatherQuery) : handle_query [] q = [] := by
  obtain ⟨l, dt, w⟩ := q
  match l, dt, w with
  | some 0, dt, w => simp [handle_query]
  | none, some d, w =>
    simp [handle_query, handle_date_query, weather_by_date]
  | some (n + 1), some d, w =>
    simp [handle_query, handle_date_query, weather_by_date]
  | none, none, some k =>
    simp [handle_query, handle_kind_query, weather_by_kind]
  | some (n + 1), none, some k =>
    simp [handle_query, handle_kind_query, weather_by_kind]
  | none, none, none => simp [handle_query, full_scan]
  | some (n + 1), none, none => simp [handle_query, full_scan]

theorem filter_date_eq_singleton (entries : List WeatherEntry) (e : WeatherEntry)
    (hnodup : (entries.map (fun x => x.date)).Nodup) (hmem : e ∈ entries) :
    entries.filter (fun x => x.date == e.date) = [e] := by
  induction entries with
  | nil => cases hmem
  | cons a l ih =>
    rw [List.map_cons, List.nodup_cons] at hnodup
    rcases List.mem_cons.mp hmem with rfl | hmem'
    · have hfl : l.filter (fun x => x.date == e.date) = [] := by
        rw [List.filter_eq_nil_iff]
        intro x hx
        simp only [beq_iff_eq]
        intro hxe
        exact hnodup.1 (hxe ▸ List.mem_map_of_mem (fun y => y.date) hx)
      simp [List.filter_cons, hfl]
    · have hne : a.date ≠ e.date := by
        intro hae
        exact hnodup.1 (hae ▸ List.mem_map_of_mem (fun y => y.date) hmem')
      have : (a.date == e.date) = false := by simp [hne]
      simp [List.filter_cons, this, ih hnodup.2 hmem']

/-- Claim C1: for every query whose limit is not Some 0 and whose date
constraint is present, handle_query returns the singleton date-index record
when it exists and the category constraint (if any) matches, the empty
sequence when the date is absent or the category mismatches, and the limit
value has no effect on this path. -/
theorem C1_date_path (entries : List WeatherEntry) (q : WeatherQuery) (d : NaiveDate)
    (hl : q.limit ≠ some 0) (hd : q.date = some d) :
    (∀ e, weather_by_date entries d = some e →
      ((q.weather = none ∨ q.weather = some e.weather) → handle_query entries q = [e]) ∧
      (∀ w, q.weather = some w → w ≠ e.weather → handle_query entries q = [])) ∧
    (weather_by_date entries d = none → handle_query entries q = []) ∧
    (∀ l₁ l₂, l₁ ≠ some 0 → l₂ ≠ some 0 →
      handle_query entries ⟨l₁, q.date, q.weather⟩ =
        handle_query entries ⟨l₂, q.date, q.weather⟩) := by
  refine ⟨?_, ?_, ?_⟩
  · intro e he
    constructor
    · intro hw
      rw [handle_query_date entries q d hl hd, handle_date_query, he]
      rcases hw with hw | hw <;> simp [hw, Option.filter]
    · intro w hw hne
      rw [handle_query_date entries q d hl hd, handle_date_query, he]
      simp [hw, hne, Option.filter]
  · intro he
    rw [handle_query_date entries q d hl hd, handle_date_query, he]
    rfl
  · intro l₁ l₂ h₁ h₂
    rw [handle_query_date entries ⟨l₁, q.date, q.weather⟩ d h₁ hd,
      handle_query_date entries ⟨l₂, q.date, q.weather⟩ d h₂ hd]
    simp [handle_date_query]

/-- Claim C2: for every query whose limit is not Some 0, with no date
constraint and a present category constraint, handle_query returns the
category index sequence in full when no limit is present, and its first
min(limit, length) elements in unchanged order when a limit is present. -/
theorem C2_kind_path (entries : List WeatherEntry) (q : WeatherQuery) (k : WeatherKind)
    (hl : q.limit ≠ some 0) (hd : q.date = none) (hw : q.weather = some k) :
    (q.limit = none → handle_query entries q = weather_by_kind entries k) ∧
    (∀ n, q.limit = some n →
      handle_query entries q = (weather_by_kind entries k).take n ∧
      (handle_query entries q).length = min n (weather_by_kind entries k).length) := by
  rw [handle_query_kind entries q k hl hd hw]
  constructor
  · intro hn
    simp [handle_kind_query, hn]
  · intro n hn
    refine ⟨by simp [handle_kind_query, hn], ?_⟩
    simp [handle_kind_query, hn, List.length_take]

/-- weather_entries succeeds exactly by sorting the successfully parsed
rows by date. -/
theorem weather_entries_eq_some (rows : List (Except WeatherEntryParseError WeatherEntry))
    (entries : List WeatherEntry) (h : weather_entries rows = some entries) :
    entries = sort_by_date (rows.filterMap Except.toOption) := by
  unfold weather_entries at h
  by_cases hc : rows.countP (fun r => !r.isOk) > 0
  · simp [hc] at h
  · simp [hc] at h
    exact h.symm

/-- Claim C3: for every query with no date constraint, no category
constraint, and limit absent or nonzero, handle_query returns the entire
dataset in ascending date order when no limit is present, and its first
min(limit, length) elements in the same order when a limit is present. -/
theorem C3_full_path (rows : List (Except WeatherEntryParseError WeatherEntry))
    (entries : List WeatherEntry) (q : WeatherQuery)
    (hrows : weather_entries rows = some entries)
    (hd : q.date = none) (hw : q.weather = none) :
    (q.limit = none → handle_query entries q = entries ∧ List.Pairwise dateLE entries) ∧
    (∀ n, q.limit = some n → n ≠ 0 →
      handle_query entries q = entries.take n ∧
      (handle_query entries q).length = min n entries.length) := by
  have hsorted : List.Pairwise dateLE entries := by
    rw [weather_entries_eq_some rows entries hrows]
    exact List.sorted_insertionSort dateLE (rows.filterMap Except.toOption)
  constructor
  · intro hn
    rw [handle_query_full entries q (by simp [hn]) hd hw]
    exact ⟨by simp [full_scan, hn], hsorted⟩
  · intro n hn hn0
    rw [handle_query_full entries q (by rw [hn]; simpa using hn0) hd hw]
    refine ⟨by simp [full_scan, hn], ?_⟩
    simp [full_scan, hn, List.length_take]

/-- Claim C4: for every query whose limit is present and equal to zero,
handle_query returns the empty sequence regardless of the date and category
constraints, without evaluating them. -/
theorem C4_zero_limit (entries : List WeatherEntry) (q : WeatherQuery)
    (h : q.limit = some 0) : handle_query entries q = [] :=
  handle_query_zero entries q h

/-- Claim C5: for every record in the dataset, when no two dataset records
share a date, the date-index lookup on that record's date returns it. -/
theorem C5_date_index_lookup (entries : List WeatherEntry) (e : WeatherEntry)
    (hnodup : (entries.map (fun x => x.date)).Nodup) (hmem : e ∈ entries) :
    weather_by_date entries e.date = some e := by
  rw [weather_by_date_spec, filter_date_eq_singleton entries e hnodup hmem]
  rfl

/-- Claim C6: for every category, the category-index lookup returns exactly
the subsequence of the dataset whose category equals it, in the same
relative order; a category with no matching records yields the empty
sequence. -/
theorem C6_kind_index (entries : List WeatherEntry) (k : WeatherKind) :
    weather_by_kind entries k = entries.filter (fun e => e.weather == k) ∧
    ((∀ e ∈ entries, e.weather ≠ k) → weather_by_kind entries k = []) := by
  refine ⟨weather_by_kind_spec entries k, ?_⟩
  intro h
  rw [weather_by_kind_spec, List.filter_eq_nil_iff]
  intro e he
  simp [h e he]

/-- Claim C7, as stated, fails on a dataset with two records on the same
date: the date path returns at most one record while two records match the
constraints. -/
theorem C7_counterexample :
    ¬ ((handle_query [dupA, dupB] ⟨some 2, some 7, none⟩).length =
      min 2 (([dupA, dupB].filter (matches_constraints ⟨some 2, some 7, none⟩)).length)) := by
  decide

/-- Claim C7 (amended with the one-record-per-date invariant of the
dataset): for every query whose limit is present and equal to N, the result
length equals min(N, number of records satisfying the date and category
constraints). -/
theorem C7_limit_length (entries : List WeatherEntry) (q : WeatherQuery) (n : Nat)
    (hnodup : (entries.map (fun x => x.date)).Nodup) (hl : q.limit = some n) :
    (handle_query entries q).length =
      min n (entries.filter (matches_constraints q)).length := by
  obtain ⟨l, dt, w⟩ := q
  simp only at hl
  subst hl
  cases n with
  | zero =>
    rw [handle_query_zero entries ⟨some 0, dt, w⟩ rfl]
    simp
  | succ n =>
    have hl' : (⟨some (n + 1), dt, w⟩ : WeatherQuery).limit ≠ some 0 := by simp
    cases dt with
    | some d =>
      rw [handle_query_date entries ⟨some (n + 1), some d, w⟩ d hl' rfl,
        handle_date_query, weather_by_date_spec]
      have hsplit : entries.filter (matches_constraints ⟨some (n + 1), some d, w⟩) =
          (entries.filter (fun e => e.date == d)).filter
            (fun e => (w.map (fun weather => weather == e.weather)).getD true) := by
        rw [List.filter_filter]
        apply List.filter_congr
        intro a _
        simp [matches_constraints, Bool.and_comm]
      rw [hsplit]
      cases hfd : entries.filter (fun e => e.date == d) with
      | nil => simp
      | cons x xs =>
        have hx : x ∈ entries ∧ (x.date == d) = true := by
          have : x ∈ entries.filter (fun e => e.date == d) := by
            rw [hfd]; exact List.mem_cons_self x xs
          exact ⟨(List.mem_filter.mp this).1, (List.mem_filter.mp this).2⟩
        have hxd : x.date = d := by simpa using hx.2
        have hsingle : entries.filter (fun e => e.date == d) = [x] := by
          rw [Eq.symm hxd]
          exact filter_date_eq_singleton entries x hnodup hx.1
        rw [hfd] at hsingle
        cases hsingle
        by_cases hpx : ((w.map (fun weather => weather == x.weather)).getD true) = true
        · simp [hpx, Option.filter, Nat.min_eq_right, Nat.succ_le_succ (Nat.zero_le n)]
        · simp only [Bool.not_eq_true] at hpx
          simp [hpx, Option.filter]
    | none =>
      cases w with
      | some k =>
        rw [handle_query_kind entries ⟨some (n + 1), none, some k⟩ k hl' rfl rfl,
          handle_kind_query]
        have hmk : entries.filter (matches_constraints ⟨some (n + 1), none, some k⟩) =
            entries.filter (fun e => e.weather == k) := by
          apply List.filter_congr
          intro a _
          by_cases h : a.weather = k <;> simp [matches_constraints, h, Ne.symm]
        rw [hmk, Eq.symm (weather_by_kind_spec entries k)]
        simp [List.length_take]
      | none =>
        rw [handle_query_full entries ⟨some (n + 1), none, none⟩ hl' rfl rfl, full_scan]
        have hall : entries.filter (matches_constraints ⟨some (n + 1), none, none⟩) =
            entries := by
          simp [matches_constraints]
        rw [hall]
        simp [List.length_take]

/-- Claim C8: the first access to the dataset store fails fast exactly when
at least one input line fails to parse; an all-successful parse with zero
records is not an error and every query over the empty dataset returns the
empty sequence. -/
theorem C8_startup (rows : List (Except WeatherEntryParseError WeatherEntry)) :
    (weather_entries rows = none ↔ ∃ r ∈ rows, r.isOk = false) ∧
    ((∀ r ∈ rows, r.isOk = true) → rows.filterMap Except.toOption = [] →
      weather_entries rows = some [] ∧ ∀ q, handle_query [] q = []) := by
  have hiff : (rows.countP (fun r => !r.isOk) > 0) ↔ ∃ r ∈ rows, r.isOk = false := by
    rw [gt_iff_lt, List.countP_pos_iff]
    simp
  constructor
  · by_cases hc : rows.countP (fun r => !r.isOk) > 0
    · simp only [weather_entries, hc, if_true, gt_iff_lt]
      exact ⟨fun _ => hiff.mp hc, fun _ => trivial⟩
    · simp only [weather_entries, hc, if_false, gt_iff_lt]
      exact ⟨fun h => absurd h (by simp), fun h => absurd (hiff.mpr h) hc⟩
  · intro hok hemp
    have hc : ¬ rows.countP (fun r => !r.isOk) > 0 := by
      intro hc
      rcases hiff.mp hc with ⟨r, hr, hfalse⟩
      rw [hok r hr] at hfalse
      cases hfalse
    refine ⟨?_, handle_query_nil⟩
    simp [weather_entries, hc, hemp, sort_by_date]

/-- Claim C9: invoking populate_indexes a second time after one successful
build is rejected with a panic (modeled as Except.error), not silently
ignored: the index cells are write-once. -/
theorem C9_populate_once (entries entries' : List WeatherEntry) (st st' : Indexes)
    (h : populate_indexes entries st = Except.ok st') :
    populate_indexes entries' st' =
      Except.error "populate_indexes should only be called once" := by
  obtain ⟨bd, bk⟩ := st
  cases bd with
  | some f => simp [populate_indexes, once_lock_set] at h
  | none =>
    cases bk with
    | some g => simp [populate_indexes, once_lock_set] at h
    | none =>
      simp only [populate_indexes, once_lock_set] at h
      cases h
      rfl

/-- Claim C10: when the stored dataset contains two or more records with the
same date, the date index maps that date to the last of them in the stored
sequence (later insertions overwrite earlier ones), so a lookup on that date
returns that last record. -/
theorem C10_duplicate_dates (entries : List WeatherEntry) (d : NaiveDate)
    (_dup : 2 ≤ (entries.filter (fun e => e.date == d)).length) :
    weather_by_date entries d = (entries.filter (fun e => e.date == d)).getLast? :=
  weather_by_date_spec entries d

theorem C1_date_path_witness : handle_query demoEntries ⟨none, some 3, none⟩ = [entrySun] :=
  ((C1_date_path demoEntries ⟨none, some 3, none⟩ 3 (by decide) rfl).1 entrySun
    (by decide)).1 (Or.inl rfl)

theorem C2_kind_path_witness :
    handle_query demoEntries ⟨some 1, none, some WeatherKind.rain⟩ =
      (weather_by_kind demoEntries WeatherKind.rain).take 1 :=
  ((C2_kind_path demoEntries ⟨some 1, none, some WeatherKind.rain⟩ WeatherKind.rain
    (by decide) rfl rfl).2 1 rfl).1

theorem C3_full_path_witness :
    handle_query demoEntries ⟨none, none, none⟩ = demoEntries ∧
      List.Pairwise dateLE demoEntries :=
  (C3_full_path [Except.ok entryRain, Except.ok entrySun] demoEntries ⟨none, none, none⟩
    (by decide) rfl rfl).1 rfl

theorem C4_zero_limit_witness :
    handle_query demoEntries ⟨some 0, some 3, some WeatherKind.rain⟩ = [] :=
  C4_zero_limit demoEntries ⟨some 0, some 3, some WeatherKind.rain⟩ rfl

theorem C5_date_index_lookup_witness :
    weather_by_date demoEntries entryRain.date = some entryRain :=
  C5_date_index_lookup demoEntries entryRain (by decide) (by decide)

theorem C6_kind_index_witness :
    weather_by_kind demoEntries WeatherKind.rain =
      demoEntries.filter (fun e => e.weather == WeatherKind.rain) :=
  (C6_kind_index demoEntries WeatherKind.rain).1

theorem C7_limit_length_witness :
    (handle_query demoEntries ⟨some 5, none, none⟩).length =
      min 5 (demoEntries.filter (matches_constraints ⟨some 5, none, none⟩)).length :=
  C7_limit_length demoEntries ⟨some 5, none, none⟩ 5 (by decide) rfl

theorem C8_startup_witness :
    weather_entries [Except.error ⟨2, "2012-06-03,Oops,17.2,9.4,2.9,sun", "parse failure"⟩] =
      none :=
  (C8_startup [Except.error ⟨2, "2012-06-03,Oops,17.2,9.4,2.9,sun", "parse failure"⟩]).1.mpr
    ⟨Except.error ⟨2, "2012-06-03,Oops,17.2,9.4,2.9,sun", "parse failure"⟩,
      List.mem_singleton.mpr rfl, rfl⟩

theorem C9_populate_once_witness :
    populate_indexes demoEntries
      ⟨some (weather_by_date demoEntries), some (weather_by_kind demoEntries)⟩ =
      Except.error "populate_indexes should only be called once" :=
  C9_populate_once demoEntries demoEntries ⟨none, none⟩
    ⟨some (weather_by_date demoEntries), some (weather_by_kind demoEntries)⟩ rfl

theorem C10_duplicate_dates_witness :
    weather_by_date [dupA, dupB] 7 = ([dupA, dupB].filter (fun e => e.date == 7)).getLast? :=
  C10_duplicate_dates [dupA, dupB] 7 (by decide)
